import Mathlib

/-!
Shallow embedding of the game-economy state machine of the 3d-farm-game
repository (the zustand store repeated, with small variations, in
src/unnamed/part_000, src/src/App.jsx and src/src/main.jsx).

The canonical store is the one of src/unnamed/part_000 (lines 8-28); the two
App.jsx variants of `serve`, which use different reward tables and - in the
second variant - reset the inventory instead of removing one item, are
embedded separately as `serveApp1` and `serveApp2`.
-/

namespace FarmGame

/-- The game phase, the values ever assigned to the store's gameState field:
'START', 'PLAYING', 'SHOP'. -/
inductive Phase where
  | START
  | PLAYING
  | SHOP
deriving DecidableEq, Repr

/-- The store's state fields (src/unnamed/part_000 lines 9-10). -/
structure GameState where
  money : Int
  day : Nat
  inventory : List String
  maxCapacity : Nat
  customersServed : Nat
  gameState : Phase
  unlockedAnimals : List String
  unlockedCrops : List String
deriving DecidableEq, Repr

/-- The initial store values of src/unnamed/part_000 line 9-10:
money 300, day 1, empty inventory, maxCapacity 3, customersServed 0,
gameState 'START', unlockedAnimals ['chicken'], unlockedCrops ['carrot']. -/
def initialState : GameState :=
  { money := 300, day := 1, inventory := [], maxCapacity := 3, customersServed := 0,
    gameState := .START, unlockedAnimals := ["chicken"], unlockedCrops := ["carrot"] }

/-- startDay (part_000 line 11): set gameState 'PLAYING', customersServed 0,
inventory []. -/
def startDay (s : GameState) : GameState :=
  { s with gameState := .PLAYING, customersServed := 0, inventory := [] }

/-- addItem (part_000 line 12): append only when inventory.length < maxCapacity,
otherwise return the state unchanged. -/
def addItem (item : String) (s : GameState) : GameState :=
  if s.inventory.length < s.maxCapacity then { s with inventory := s.inventory ++ [item] }
  else s

/-- The reward table of part_000 line 15: { egg: 25, duck_egg: 50, tomato: 60,
carrot: 35 }. -/
def rewards (item : String) : Option Int :=
  if item = "egg" then some 25
  else if item = "duck_egg" then some 50
  else if item = "tomato" then some 60
  else if item = "carrot" then some 35
  else none

/-- rewards[item] || 20 of part_000 line 20 (every table value is nonzero, so
the JS falsy-fallback is exactly the none-fallback). -/
def rewardOf (item : String) : Int := (rewards item).getD 20

/-- serve (part_000 lines 13-21): no-op when the item is not in the inventory;
otherwise remove the first occurrence (indexOf + splice), add the reward,
increment customersServed, and set gameState 'SHOP' when the new total
reaches 10, 'PLAYING' otherwise. -/
def serve (itemNeeded : String) (s : GameState) : GameState :=
  if itemNeeded ∈ s.inventory then
    let total := s.customersServed + 1
    { s with money := s.money + rewardOf itemNeeded,
             customersServed := total,
             inventory := s.inventory.erase itemNeeded,
             gameState := if total ≥ 10 then .SHOP else .PLAYING }
  else s

/-- buyUpgrade (part_000 lines 22-26): no-op when money < cost; otherwise
deduct cost and append nextItem to unlockedAnimals when the kind is 'animal'
and to unlockedCrops otherwise. -/
def buyUpgrade (kind : String) (cost : Int) (nextItem : String) (s : GameState) : GameState :=
  if s.money < cost then s
  else if kind = "animal" then
    { s with money := s.money - cost, unlockedAnimals := s.unlockedAnimals ++ [nextItem] }
  else
    { s with money := s.money - cost, unlockedCrops := s.unlockedCrops ++ [nextItem] }

/-- nextDay (part_000 line 27): increment day, set gameState 'START'. -/
def nextDay (s : GameState) : GameState :=
  { s with day := s.day + 1, gameState := .START }

/-- The reward table of the first App.jsx variant (App.jsx line 17):
{ egg: 20, duck_egg: 45, sheep_milk: 80, carrot: 30, tomato: 55 }. -/
def rewardsApp1 (item : String) : Option Int :=
  if item = "egg" then some 20
  else if item = "duck_egg" then some 45
  else if item = "sheep_milk" then some 80
  else if item = "carrot" then some 30
  else if item = "tomato" then some 55
  else none

/-- rewards[itemNeeded] || 20 of App.jsx line 25. -/
def rewardOfApp1 (item : String) : Int := (rewardsApp1 item).getD 20

/-- serve of the first App.jsx variant (App.jsx lines 15-30): same shape as
the canonical serve (removes one instance via indexOf + splice), with its own
reward table. -/
def serveApp1 (itemNeeded : String) (s : GameState) : GameState :=
  if itemNeeded ∈ s.inventory then
    let total := s.customersServed + 1
    { s with money := s.money + rewardOfApp1 itemNeeded,
             customersServed := total,
             inventory := s.inventory.erase itemNeeded,
             gameState := if total ≥ 10 then .SHOP else .PLAYING }
  else s

/-- The reward table of the second App.jsx variant (App.jsx line 264):
{ egg: 20, duck_egg: 40, sheep_milk: 70, cow_milk: 120, carrot: 25,
tomato: 50, cabbage: 90 }. -/
def rewardsApp2 (item : String) : Option Int :=
  if item = "egg" then some 20
  else if item = "duck_egg" then some 40
  else if item = "sheep_milk" then some 70
  else if item = "cow_milk" then some 120
  else if item = "carrot" then some 25
  else if item = "tomato" then some 50
  else if item = "cabbage" then some 90
  else none

/-- rewards[itemType] || 20 of App.jsx line 266. -/
def rewardOfApp2 (item : String) : Int := (rewardsApp2 item).getD 20

/-- serve of the second App.jsx variant (App.jsx lines 262-267): same guard
and money/customersServed/gameState updates, but sets inventory to [] -
the whole inventory is cleared, not just one occurrence. -/
def serveApp2 (itemType : String) (s : GameState) : GameState :=
  if itemType ∈ s.inventory then
    let total := s.customersServed + 1
    { s with money := s.money + rewardOfApp2 itemType,
             customersServed := total,
             inventory := [],
             gameState := if total ≥ 10 then .SHOP else .PLAYING }
  else s

/-- The call surface of the store: one constructor per operation. -/
inductive Op where
  | startDay
  | addItem (item : String)
  | serve (item : String)
  | buyUpgrade (kind : String) (cost : Int) (nextItem : String)
  | nextDay
deriving Repr

/-- Apply one operation of the canonical store. -/
def step (op : Op) (s : GameState) : GameState :=
  match op with
  | .startDay => startDay s
  | .addItem i => addItem i s
  | .serve i => serve i s
  | .buyUpgrade k c n => buyUpgrade k c n s
  | .nextDay => nextDay s

/-- Run a sequence of operations from a state. -/
def run (ops : List Op) (s : GameState) : GameState :=
  ops.foldl (fun st op => step op st) s

/-- The starting state of the worked example of the spec (section 8):
money 50, empty inventory, customersServed 9, phase PLAYING; the remaining
fields keep the store defaults. -/
def exampleStart : GameState :=
  { money := 50, day := 1, inventory := [], maxCapacity := 3, customersServed := 9,
    gameState := .PLAYING, unlockedAnimals := ["chicken"], unlockedCrops := ["carrot"] }

end FarmGame

namespace FarmGame

/-- C7: addItem appends the item to the end of the inventory exactly when the
inventory length is below maxCapacity, and otherwise returns the state
completely unchanged. -/
theorem addItem_spec (s : GameState) (i : String) :
    (s.inventory.length < s.maxCapacity →
      addItem i s = { s with inventory := s.inventory ++ [i] })
    ∧ (¬ s.inventory.length < s.maxCapacity → addItem i s = s) := by
  constructor <;> intro h <;> simp [addItem, h]

/-- Witness for C7 at the initial state (0 < 3) and the item 'egg'. -/
theorem addItem_spec_witness :
    initialState.inventory.length < initialState.maxCapacity
    ∧ addItem "egg" initialState = { initialState with inventory := initialState.inventory ++ ["egg"] } :=
  ⟨by decide, (addItem_spec initialState "egg").1 (by decide)⟩

/-- C6: serving an item that is not in the inventory returns the state
completely unchanged, in the canonical store and both App.jsx variants. -/
theorem serve_absent_noop (s : GameState) (i : String) (h : i ∉ s.inventory) :
    serve i s = s ∧ serveApp1 i s = s ∧ serveApp2 i s = s := by
  refine ⟨?_, ?_, ?_⟩ <;> simp [serve, serveApp1, serveApp2, h]

/-- Witness for C6 at the initial state (empty inventory) and the item 'egg'. -/
theorem serve_absent_noop_witness :
    "egg" ∉ initialState.inventory
    ∧ (serve "egg" initialState = initialState
        ∧ serveApp1 "egg" initialState = initialState
        ∧ serveApp2 "egg" initialState = initialState) :=
  ⟨by decide, serve_absent_noop initialState "egg" (by decide)⟩

/-- C2: buyUpgrade with money < cost leaves the state unchanged for every
kind; with money >= cost it deducts exactly cost and appends the next unlock
exactly once to the set selected by the kind ('animal' selects
unlockedAnimals, 'crop' selects unlockedCrops), leaving every other field,
in particular the other unlock set, unchanged. -/
theorem buyUpgrade_spec (s : GameState) (cost : Int) (nextItem : String) :
    (s.money < cost → ∀ kind, buyUpgrade kind cost nextItem s = s)
    ∧ (cost ≤ s.money →
        buyUpgrade "animal" cost nextItem s =
          { s with money := s.money - cost,
                   unlockedAnimals := s.unlockedAnimals ++ [nextItem] }
        ∧ buyUpgrade "crop" cost nextItem s =
          { s with money := s.money - cost,
                   unlockedCrops := s.unlockedCrops ++ [nextItem] }) := by
  constructor
  · intro h kind
    simp [buyUpgrade, h]
  · intro h
    have h' : ¬ s.money < cost := not_lt.mpr h
    constructor <;> simp [buyUpgrade, h']

/-- Witness for C2 at the initial state, cost 200, next unlock 'duck'. -/
theorem buyUpgrade_spec_witness :
    (200 : Int) ≤ initialState.money
    ∧ buyUpgrade "animal" 200 "duck" initialState =
        { initialState with money := initialState.money - 200,
                            unlockedAnimals := initialState.unlockedAnimals ++ ["duck"] } :=
  ⟨by decide, ((buyUpgrade_spec initialState 200 "duck").2 (by decide)).1⟩

/-- C8: from {money 50, inventory [], customersServed 9, PLAYING}, the reward
for 'egg' is 25, and addItem('egg') followed by serve('egg') yields money 75,
empty inventory, customersServed 10, and phase SHOP. -/
theorem example_day_end_scenario :
    rewardOf "egg" = 25
    ∧ (serve "egg" (addItem "egg" exampleStart)).money = 75
    ∧ (serve "egg" (addItem "egg" exampleStart)).inventory = []
    ∧ (serve "egg" (addItem "egg" exampleStart)).customersServed = 10
    ∧ (serve "egg" (addItem "egg" exampleStart)).gameState = Phase.SHOP := by
  decide

/-- C10: buyUpgrade performs no membership check: whenever money >= cost it
deducts the cost and appends the next unlock to the selected collection even
when that unlock is already present (the occurrence count always rises by
one), and an affordable repeated purchase charges the cost again and leaves a
duplicate entry. -/
theorem buyUpgrade_duplicate_purchase (s : GameState) (cost : Int) (nextItem : String)
    (h : cost ≤ s.money) :
    ((buyUpgrade "animal" cost nextItem s).unlockedAnimals.count nextItem
        = s.unlockedAnimals.count nextItem + 1
      ∧ (buyUpgrade "animal" cost nextItem s).money = s.money - cost)
    ∧ ((buyUpgrade "crop" cost nextItem s).unlockedCrops.count nextItem
        = s.unlockedCrops.count nextItem + 1
      ∧ (buyUpgrade "crop" cost nextItem s).money = s.money - cost)
    ∧ (cost ≤ s.money - cost →
        (buyUpgrade "animal" cost nextItem (buyUpgrade "animal" cost nextItem s)).unlockedAnimals
          = s.unlockedAnimals ++ [nextItem, nextItem]
        ∧ (buyUpgrade "animal" cost nextItem (buyUpgrade "animal" cost nextItem s)).money
          = s.money - cost - cost) := by
  have h' : ¬ s.money < cost := not_lt.mpr h
  refine ⟨⟨?_, ?_⟩, ⟨?_, ?_⟩, ?_⟩
  · simp [buyUpgrade, h']
  · simp [buyUpgrade, h']
  · simp [buyUpgrade, h']
  · simp [buyUpgrade, h']
  · intro h2
    have h2' : ¬ s.money - cost < cost := not_lt.mpr h2
    constructor <;> simp [buyUpgrade, h', h2']

/-- Every reward the canonical serve can pay out, the table values and the
fallback 20 alike, is positive. -/
lemma rewardOf_pos (i : String) : 0 < rewardOf i := by
  unfold rewardOf rewards
  repeat' split
  all_goals norm_num

/-- One step never lowers the capacity bound on the inventory length. -/
lemma inventory_le_capacity_step (s : GameState) (op : Op)
    (h : s.inventory.length ≤ s.maxCapacity) :
    (step op s).inventory.length ≤ (step op s).maxCapacity := by
  cases op with
  | startDay => simp [step, startDay]
  | addItem i =>
      simp only [step, addItem]
      split
      · simp
        omega
      · exact h
  | serve i =>
      simp only [step, serve]
      split
      · simpa using le_trans (List.Sublist.length_le (s.inventory.erase_sublist i)) h
      · exact h
  | buyUpgrade k c n =>
      simp only [step, buyUpgrade]
      split
      · exact h
      · split <;> simpa using h
  | nextDay => simpa [step, nextDay] using h

/-- C4: the invariant inventory.length <= maxCapacity holds in the initial
state and is preserved by every operation with every argument; in particular
addItem never grows the inventory beyond maxCapacity. -/
theorem inventory_capacity_invariant :
    initialState.inventory.length ≤ initialState.maxCapacity
    ∧ ∀ (s : GameState) (op : Op),
        s.inventory.length ≤ s.maxCapacity →
        (step op s).inventory.length ≤ (step op s).maxCapacity :=
  ⟨by decide, fun s op h => inventory_le_capacity_step s op h⟩

/-- Witness for C4: preservation applied at the initial state and an addItem
step. -/
theorem inventory_capacity_invariant_witness :
    initialState.inventory.length ≤ initialState.maxCapacity
    ∧ (step (Op.addItem "egg") initialState).inventory.length
        ≤ (step (Op.addItem "egg") initialState).maxCapacity :=
  ⟨by decide, inventory_capacity_invariant.2 initialState (Op.addItem "egg") (by decide)⟩

/-- The operations whose cost argument (if any) is non-negative; the four
cost-free operations satisfy it trivially. -/
def nonNegCost : Op → Prop
  | .buyUpgrade _ c _ => 0 ≤ c
  | _ => True

/-- One step with a non-negative cost argument keeps money non-negative. -/
lemma money_nonneg_step (s : GameState) (op : Op) (h : 0 ≤ s.money)
    (hc : nonNegCost op) : 0 ≤ (step op s).money := by
  cases op with
  | startDay => simpa [step, startDay] using h
  | addItem i =>
      simp only [step, addItem]
      split <;> simpa using h
  | serve i =>
      simp only [step, serve]
      split
      · have := rewardOf_pos i
        simp
        omega
      · exact h
  | buyUpgrade k c n =>
      simp only [step, buyUpgrade]
      split
      · exact h
      · rename_i hm
        have hcm : c ≤ s.money := not_lt.mp hm
        have hc' : (0 : Int) ≤ c := hc
        split <;> simp <;> omega
  | nextDay => simpa [step, nextDay] using h

/-- Running any sequence of non-negative-cost operations from a state with
non-negative money keeps money non-negative. -/
lemma money_nonneg_run (ops : List Op) (s : GameState) (h : 0 ≤ s.money)
    (hc : ∀ op ∈ ops, nonNegCost op) : 0 ≤ (run ops s).money := by
  induction ops generalizing s with
  | nil => simpa [run] using h
  | cons op rest ih =>
      have h1 : 0 ≤ (step op s).money :=
        money_nonneg_step s op h (hc op (List.mem_cons_self op rest))
      have h2 : ∀ o ∈ rest, nonNegCost o := fun o ho => hc o (List.mem_cons_of_mem op ho)
      simpa [run] using ih (step op s) h1 h2

/-- C5: money starts non-negative, serve never decreases it, buyUpgrade with
money < cost is a no-op, every step with a non-negative cost preserves money
>= 0, and hence every run of non-negative-cost operations from the initial
state ends with non-negative money. -/
theorem money_nonneg_invariant :
    (0 : Int) ≤ initialState.money
    ∧ (∀ (s : GameState) (i : String), s.money ≤ (serve i s).money)
    ∧ (∀ (s : GameState) (k n : String) (c : Int), s.money < c → buyUpgrade k c n s = s)
    ∧ (∀ (s : GameState) (op : Op), 0 ≤ s.money → nonNegCost op → 0 ≤ (step op s).money)
    ∧ (∀ ops : List Op, (∀ op ∈ ops, nonNegCost op) → 0 ≤ (run ops initialState).money) := by
  refine ⟨by decide, ?_, ?_, ?_, ?_⟩
  · intro s i
    simp only [serve]
    split
    · have := rewardOf_pos i
      simp
      omega
    · exact le_refl _
  · intro s k n c hlt
    simp [buyUpgrade, hlt]
  · exact fun s op h hc => money_nonneg_step s op h hc
  · exact fun ops hc => money_nonneg_run ops initialState (by decide) hc

/-- Witness for C5: the step clause applied at the initial state and an
affordable purchase with non-negative cost. -/
theorem money_nonneg_invariant_witness :
    (0 : Int) ≤ initialState.money
    ∧ nonNegCost (Op.buyUpgrade "animal" 200 "duck")
    ∧ (0 : Int) ≤ (step (Op.buyUpgrade "animal" 200 "duck") initialState).money :=
  ⟨by decide, by show (0 : Int) ≤ 200; norm_num,
    money_nonneg_invariant.2.2.2.1 initialState (Op.buyUpgrade "animal" 200 "duck")
      (by decide) (by show (0 : Int) ≤ 200; norm_num)⟩

/-- C9: every member of either unlock set before any operation is still a
member after it - the unlock sets never lose an element. -/
theorem unlock_sets_monotone (s : GameState) (op : Op) (x : String) :
    (x ∈ s.unlockedAnimals → x ∈ (step op s).unlockedAnimals)
    ∧ (x ∈ s.unlockedCrops → x ∈ (step op s).unlockedCrops) := by
  constructor <;> intro hx <;> cases op <;>
    simp only [step, startDay, addItem, serve, buyUpgrade, nextDay] <;>
    repeat' split
  all_goals simp_all

/-- Witness for C9: membership of 'chicken' survives a buyUpgrade step from
the initial state. -/
theorem unlock_sets_monotone_witness :
    "chicken" ∈ initialState.unlockedAnimals
    ∧ "chicken" ∈ (step (Op.buyUpgrade "animal" 200 "duck") initialState).unlockedAnimals :=
  ⟨by decide,
    (unlock_sets_monotone initialState (Op.buyUpgrade "animal" 200 "duck") "chicken").1
      (by decide)⟩

/-- Witness for C10 at the initial state (money 300), cost 100, unlock 'duck':
both purchases are affordable. -/
theorem buyUpgrade_duplicate_purchase_witness :
    (100 : Int) ≤ initialState.money
    ∧ (100 : Int) ≤ initialState.money - 100
    ∧ (buyUpgrade "animal" 100 "duck" (buyUpgrade "animal" 100 "duck" initialState)).unlockedAnimals
        = initialState.unlockedAnimals ++ ["duck", "duck"] :=
  ⟨by decide, by decide,
    ((buyUpgrade_duplicate_purchase initialState 100 "duck" (by decide)).2.2 (by decide)).1⟩

/-- Erasing a present element lowers its occurrence count by exactly one. -/
lemma count_erase_present (l : List String) (i : String) (h : i ∈ l) :
    (l.erase i).count i + 1 = l.count i := by
  have hpos : 0 < l.count i := List.count_pos_iff.mpr h
  have he : (l.erase i).count i = l.count i - 1 := List.count_erase_self i l
  omega

/-- Erasing one element leaves the occurrence count of every other element
unchanged. -/
lemma count_erase_other (l : List String) (i j : String) (hj : j ≠ i) :
    (l.erase i).count j = l.count j :=
  List.count_erase_of_ne hj l

/-- A PLAYING state holding two eggs, used to exercise serving with a
duplicate item in the inventory. -/
def doubleEggState : GameState :=
  { initialState with inventory := ["egg", "egg"], gameState := .PLAYING }

/-- C1 counterexample: with two eggs held, the serve of App.jsx lines 262-267
leaves zero eggs, not one - it clears the whole inventory rather than
removing exactly one occurrence. -/
theorem serveApp2_clears_inventory_counterexample :
    "egg" ∈ doubleEggState.inventory
    ∧ doubleEggState.inventory.count "egg" = 2
    ∧ (serveApp2 "egg" doubleEggState).inventory.count "egg" = 0
    ∧ ¬ ((serveApp2 "egg" doubleEggState).inventory.count "egg" + 1
          = doubleEggState.inventory.count "egg") := by
  decide

/-- C1 (amended): when the item is held, the canonical serve and the serve of
App.jsx lines 15-30 remove exactly one occurrence of it (every other
occurrence and every other item keeps its count), add the variant's tabled
reward (fallback 20), and increment customersServed by one; the serve of
App.jsx lines 262-267 performs the same money and customersServed updates but
resets the inventory to empty. -/
theorem serve_removes_exactly_one (s : GameState) (i : String) (h : i ∈ s.inventory) :
    ((serve i s).inventory.count i + 1 = s.inventory.count i
      ∧ (∀ j, j ≠ i → (serve i s).inventory.count j = s.inventory.count j)
      ∧ (serve i s).money = s.money + rewardOf i
      ∧ (serve i s).customersServed = s.customersServed + 1)
    ∧ ((serveApp1 i s).inventory.count i + 1 = s.inventory.count i
      ∧ (∀ j, j ≠ i → (serveApp1 i s).inventory.count j = s.inventory.count j)
      ∧ (serveApp1 i s).money = s.money + rewardOfApp1 i
      ∧ (serveApp1 i s).customersServed = s.customersServed + 1)
    ∧ ((serveApp2 i s).money = s.money + rewardOfApp2 i
      ∧ (serveApp2 i s).customersServed = s.customersServed + 1
      ∧ (serveApp2 i s).inventory = []) := by
  refine ⟨⟨?_, ?_, ?_, ?_⟩, ⟨?_, ?_, ?_, ?_⟩, ?_, ?_, ?_⟩
  · simp [serve, h]
  · intro j hj
    simpa [serve, h] using count_erase_other s.inventory i j hj
  · simp [serve, h]
  · simp [serve, h]
  · simp [serveApp1, h]
  · intro j hj
    simpa [serveApp1, h] using count_erase_other s.inventory i j hj
  · simp [serveApp1, h]
  · simp [serveApp1, h]
  · simp [serveApp2, h]
  · simp [serveApp2, h]
  · simp [serveApp2, h]

/-- A default state holding one egg and one carrot. -/
def twoItemState : GameState := { initialState with inventory := ["egg", "carrot"] }

/-- Witness for C1 at a state holding an egg and a carrot: serving the egg
keeps the carrot count in the splice variants, and empties the inventory in
the clearing variant. -/
theorem serve_removes_exactly_one_witness :
    "egg" ∈ twoItemState.inventory
    ∧ (serve "egg" twoItemState).inventory.count "carrot"
        = twoItemState.inventory.count "carrot"
    ∧ (serveApp2 "egg" twoItemState).inventory = [] :=
  ⟨by decide,
    (serve_removes_exactly_one twoItemState "egg" (by decide)).1.2.1 "carrot" (by decide),
    (serve_removes_exactly_one twoItemState "egg" (by decide)).2.2.2.2⟩

/-- A trace reaching the SHOP phase from the initial state: start the day,
then collect and serve one egg ten times. -/
def shopTrace : List Op :=
  [.startDay,
   .addItem "egg", .serve "egg",
   .addItem "egg", .serve "egg",
   .addItem "egg", .serve "egg",
   .addItem "egg", .serve "egg",
   .addItem "egg", .serve "egg",
   .addItem "egg", .serve "egg",
   .addItem "egg", .serve "egg",
   .addItem "egg", .serve "egg",
   .addItem "egg", .serve "egg",
   .addItem "egg", .serve "egg"]

/-- The phase-change edges the claim allows: START to PLAYING, PLAYING to
SHOP, PLAYING to PLAYING, SHOP to START, PLAYING to START. -/
def allowedEdge : Phase → Phase → Bool
  | .START, .PLAYING => true
  | .PLAYING, .SHOP => true
  | .PLAYING, .PLAYING => true
  | .SHOP, .START => true
  | .PLAYING, .START => true
  | _, _ => false

/-- C3 counterexample: a concrete operation sequence from the initial state
reaches SHOP, and one further startDay moves the phase to PLAYING - a SHOP to
PLAYING change outside the claimed edge set. -/
theorem startDay_from_shop_counterexample :
    (run shopTrace initialState).gameState = Phase.SHOP
    ∧ (run (shopTrace ++ [Op.startDay]) initialState).gameState = Phase.PLAYING
    ∧ allowedEdge Phase.SHOP Phase.PLAYING = false := by
  decide

/-- C3 (amended): in every operation sequence the phase changes are exactly:
startDay sets PLAYING from any phase (so SHOP to PLAYING also occurs),
nextDay sets START from any phase, addItem and buyUpgrade never change the
phase, serve of an item not held changes nothing, and serve of a held item
sets SHOP exactly when the incremented customersServed reaches 10 and PLAYING
otherwise, regardless of the current phase. -/
theorem gameState_transition_characterization (s : GameState) (i k n : String) (c : Int) :
    (step Op.startDay s).gameState = Phase.PLAYING
    ∧ (step Op.nextDay s).gameState = Phase.START
    ∧ (step (Op.addItem i) s).gameState = s.gameState
    ∧ (step (Op.buyUpgrade k c n) s).gameState = s.gameState
    ∧ (i ∉ s.inventory → step (Op.serve i) s = s)
    ∧ (i ∈ s.inventory →
        (step (Op.serve i) s).gameState
          = if s.customersServed + 1 ≥ 10 then Phase.SHOP else Phase.PLAYING) := by
  refine ⟨rfl, rfl, ?_, ?_, ?_, ?_⟩
  · simp only [step, addItem]
    split <;> rfl
  · simp only [step, buyUpgrade]
    split
    · rfl
    · split <;> rfl
  · intro h
    simp [step, serve, h]
  · intro h
    simp [step, serve, h]

/-- Witness for C3 at the initial state and a state holding an egg: startDay
yields PLAYING, and serving the held egg at customersServed 0 yields the
below-threshold branch. -/
theorem gameState_transition_characterization_witness :
    (step Op.startDay initialState).gameState = Phase.PLAYING
    ∧ "egg" ∈ twoItemState.inventory
    ∧ (step (Op.serve "egg") twoItemState).gameState
        = if twoItemState.customersServed + 1 ≥ 10 then Phase.SHOP else Phase.PLAYING :=
  ⟨(gameState_transition_characterization initialState "egg" "animal" "duck" 0).1,
   by decide,
   (gameState_transition_characterization twoItemState "egg" "animal" "duck" 0).2.2.2.2.2
     (by decide)⟩

end FarmGame
